import Mathlib

/-!
Verification of the UltraSearch examples repository
(`examples/typescript/src/index.ts`,
`examples/typescript/src/types/search-transactions-req.ts`, and the
documented `searchTransactions` request contract).

The embedding keeps the source's names where Lean allows it.  Transaction
records are kept abstract (a type parameter `α`): the client never inspects
record contents, it only accumulates them.
-/

namespace UltraSearch

/-- Level of transaction detail in the response
(`enum TransactionDetails` in `search-transactions-req.ts`). -/
inductive TransactionDetails where
  | Signatures
  | Full
deriving DecidableEq

/-- Sort order for results based on slot number
(`enum SortOrder` in `search-transactions-req.ts`). -/
inductive SortOrder where
  | ASC
  | DESC
deriving DecidableEq

/-- Search parameters for transaction queries
(`interface SearchParams` in `search-transactions-req.ts`).
All parameters are optional; addresses are strings. -/
structure SearchParams where
  accountInclude : List String := []
  accountExclude : List String := []
  accountRequired : List String := []
  fromBlock : Option Nat := none
  toBlock : Option Nat := none
  vote : Option Bool := none
  failed : Option Bool := none
  sort : Option SortOrder := none
  paginationToken : Option String := none
  limit : Option Nat := none
  transactionDetails : Option TransactionDetails := none
deriving DecidableEq

/-- The `result` object of a successful `searchTransactions` response
(`SearchTransactionsResponse.result`): an ordered list of records and a
pagination token that is `null` (`none`) when no more results exist. -/
structure ResultPayload (α : Type) where
  data : List α
  paginationToken : Option String
deriving DecidableEq

/-- A JSON-RPC response body as the client sees it: it may carry a
`result` member, an `error` member (only its message matters to the
client), both, or neither (a malformed response). -/
structure RpcResponse (α : Type) where
  result : Option (ResultPayload α) := none
  error : Option String := none
deriving DecidableEq

/-- The helper `searchTransactions` from `src/index.ts` (lines 33–53):
if the response body has an `error` member it throws `error.message`,
otherwise it returns `response.data.result` unchanged — even when that
member is absent. -/
def searchTransactions (resp : RpcResponse α) :
    Except String (Option (ResultPayload α)) :=
  match resp.error with
  | some msg => .error msg
  | none => .ok resp.result

/-- How a run of the pagination loop ended:
normal exhaustion (`paginationToken === null`), the demo cap
(`if (pageCount >= 3) break`), a thrown RPC error, or the runtime
`TypeError` raised by `result.data` when `result` is absent. -/
inductive ExitKind where
  | exhausted
  | capped
  | rpcError (msg : String)
  | typeError
deriving DecidableEq

/-- Observable outcome of one run of `fetchAllTransactionsWithPagination`:
the records pushed into `allTransactions` (in push order), the
`paginationToken` values sent with each request (in request order),
the final `pageCount`, and how the loop exited. -/
structure RunResult (α : Type) where
  records : List α
  requests : List (Option String)
  pages : Nat
  exit : ExitKind
deriving DecidableEq

/-- One iteration of the do-while loop in
`fetchAllTransactionsWithPagination` (`src/index.ts` lines 281–314),
starting at page number `k` with the current `paginationToken` `token`,
records accumulated so far `acc`, and tokens already sent `reqs`.
The body: send the request carrying `token`, run `searchTransactions`,
push `result.data`, set `token = result.paginationToken`, then
`if (pageCount >= 3) break`, and loop `while (paginationToken !== null)`.
All other request fields are the same constants on every iteration. -/
def loopGo (server : Nat → RpcResponse α) (k : Nat) (token : Option String)
    (acc : List α) (reqs : List (Option String)) : RunResult α :=
  let reqs := reqs ++ [token]
  match searchTransactions (server k) with
  | .error msg => ⟨acc, reqs, k, .rpcError msg⟩
  | .ok none => ⟨acc, reqs, k, .typeError⟩
  | .ok (some pl) =>
    let acc := acc ++ pl.data
    if 3 ≤ k then ⟨acc, reqs, k, .capped⟩
    else
      match pl.paginationToken with
      | none => ⟨acc, reqs, k, .exhausted⟩
      | some c => loopGo server (k + 1) (some c) acc reqs
termination_by 3 - k

/-- `fetchAllTransactionsWithPagination` from `src/index.ts`
(lines 274–319), abstracted over the server's response to the
`k`-th request (`k` counts from 1, matching `pageCount`): the loop starts
with `paginationToken = null`, an empty `allTransactions`, and no request
sent yet. -/
def fetchAllTransactionsWithPagination (server : Nat → RpcResponse α) :
    RunResult α :=
  loopGo server 1 none [] []

/-- The pagination loop unrolled: because of the `pageCount >= 3` break,
at most three requests are ever issued, so the run is equivalent to this
closed (non-recursive) case tree, proved below as
`fetchAllTransactionsWithPagination_eq`. -/
def runSpec (server : Nat → RpcResponse α) : RunResult α :=
  match searchTransactions (server 1) with
  | .error msg => ⟨[], [none], 1, .rpcError msg⟩
  | .ok none => ⟨[], [none], 1, .typeError⟩
  | .ok (some p1) =>
    match p1.paginationToken with
    | none => ⟨p1.data, [none], 1, .exhausted⟩
    | some c1 =>
      match searchTransactions (server 2) with
      | .error msg => ⟨p1.data, [none, some c1], 2, .rpcError msg⟩
      | .ok none => ⟨p1.data, [none, some c1], 2, .typeError⟩
      | .ok (some p2) =>
        match p2.paginationToken with
        | none => ⟨p1.data ++ p2.data, [none, some c1], 2, .exhausted⟩
        | some c2 =>
          match searchTransactions (server 3) with
          | .error msg =>
            ⟨p1.data ++ p2.data, [none, some c1, some c2], 3, .rpcError msg⟩
          | .ok none =>
            ⟨p1.data ++ p2.data, [none, some c1, some c2], 3, .typeError⟩
          | .ok (some p3) =>
            ⟨p1.data ++ p2.data ++ p3.data,
              [none, some c1, some c2], 3, .capped⟩

/-- A server behaviour described by an explicit list of pages: the `k`-th
request (1-indexed) is answered with the `k`-th page (records and next
`paginationToken`); any request past the end of the list is answered with
an RPC error, so a correct run never sees it. -/
def serverOfPages (pages : List (List α × Option String)) :
    Nat → RpcResponse α :=
  fun k =>
    match pages[k - 1]? with
    | some pg => ⟨some ⟨pg.1, pg.2⟩, none⟩
    | none => ⟨none, some "no such page"⟩

/-- A server behaviour with a failing page: the first `pages.length`
requests are answered with the listed pages (each carrying a non-null
`paginationToken`), and request `pages.length + 1` is answered with an
RPC error carrying `msg`. -/
def serverWithErr (pages : List (List α × String)) (msg : String) :
    Nat → RpcResponse α :=
  fun k =>
    match pages[k - 1]? with
    | some pg => ⟨some ⟨pg.1, some pg.2⟩, none⟩
    | none => ⟨none, some msg⟩

/-- A finite server trace that eventually exhausts: it is nonempty, every
page before the last carries a non-null `paginationToken`, and the last
page's `paginationToken` is null. -/
def WFtrace (pages : List (List α × Option String)) : Prop :=
  pages ≠ [] ∧
  (∀ i, i < pages.length - 1 → (pages[i]?).map Prod.snd ≠ some none) ∧
  (pages[pages.length - 1]?).map Prod.snd = some none

instance (pages : List (List α × Option String)) [DecidableEq α] :
    Decidable (WFtrace pages) := by
  unfold WFtrace
  infer_instance

/-!
The request-validation rules, the limit caps and defaults, and the
default block-range window are part of the documented server contract
(`docs/FULL_TRANSACTIONS.md` Block Range Rules, `docs/BASIC_SEARCH.md`,
the API reference, and the doc comments in `search-transactions-req.ts`);
no implementation of them exists in this repository, so the definitions
below model them from the spec.
-/

/-- Modelled from the spec: the local validation error taxonomy of the
query engine (§7): `UnpairedBlockRange` when exactly one of
`fromBlock`/`toBlock` is set, `RangeInverted` when both are set with
`toBlock < fromBlock`, `LimitExceeded` when `limit` exceeds the cap of
the active detail level. -/
inductive ValidationError where
  | UnpairedBlockRange
  | RangeInverted
  | LimitExceeded
deriving DecidableEq

/-- The per-request result cap documented for each detail level
(`search-transactions-req.ts` doc comments, API reference): 1000 for
`Signatures`, 100 for `Full`. -/
def detailCap : TransactionDetails → Nat
  | .Signatures => 1000
  | .Full => 100

/-- The detail level actually applied: `transactionDetails` when given,
otherwise the documented default `Signatures`. -/
def effectiveDetails (p : SearchParams) : TransactionDetails :=
  p.transactionDetails.getD .Signatures

/-- The sort order actually applied: `sort` when given, otherwise the
documented default `DESC` (`search-transactions-req.ts` line 101 and the
Block Range Rules table). -/
def effectiveSort (p : SearchParams) : SortOrder :=
  p.sort.getD .DESC

/-- The limit actually applied: `limit` when given, otherwise the
documented default, which equals the cap of the active detail level
(1000 for `Signatures`, 100 for `Full`). -/
def effectiveLimit (p : SearchParams) : Nat :=
  p.limit.getD (detailCap (effectiveDetails p))

/-- Modelled from the spec: the limit rule — a supplied `limit` above the
cap of the active detail level is rejected with `LimitExceeded`, never
silently clamped.  Only the documented maximum is enforced; the docs
state no minimum. -/
def checkLimit (p : SearchParams) : Except ValidationError SearchParams :=
  match p.limit with
  | some l =>
    if detailCap (effectiveDetails p) < l then .error .LimitExceeded
    else .ok p
  | none => .ok p

/-- Modelled from the spec: `validate` (§4.1) — `fromBlock` and `toBlock`
must be supplied together (Block Range Rules, Basic Rule), a supplied
pair must satisfy `fromBlock ≤ toBlock`, and the limit rule applies. -/
def validate (p : SearchParams) : Except ValidationError SearchParams :=
  match p.fromBlock, p.toBlock with
  | some _, none => .error .UnpairedBlockRange
  | none, some _ => .error .UnpairedBlockRange
  | some f, some t =>
    if t < f then .error .RangeInverted else checkLimit p
  | none, none => checkLimit p

/-- Modelled from the spec: a whole query session — validation runs
first, and only a spec that passes validation reaches the network; the
second component counts the network calls performed, which is `0`
whenever validation rejects (fail fast, zero side effects). -/
def runSession (p : SearchParams) (server : Nat → RpcResponse α) :
    Except ValidationError (RunResult α) × Nat :=
  match validate p with
  | .error e => (.error e, 0)
  | .ok _ =>
    let r := fetchAllTransactionsWithPagination server
    (.ok r, r.requests.length)

/-- A pagination cursor as the server interprets it: the pair encoded in
the opaque token string `"slot:transactionIndex"`. -/
structure Cursor where
  slot : Nat
  transactionIndex : Nat
deriving DecidableEq

/-- The server-side anchors the default window is computed from: the
latest slot known to the index and the first indexed slot. -/
structure ChainState where
  latestKnownSlot : Nat
  firstIndexedSlot : Nat
deriving DecidableEq

/-- Modelled from the spec: `resolveDefaultWindow` (§4.1 and the Default
Block Range table of `docs/FULL_TRANSACTIONS.md`) — the 5000-slot window
applied when both `fromBlock` and `toBlock` are absent, chosen by whether
a pagination cursor is present and by the effective sort order.  Slot
arithmetic is truncated at zero (`Nat` subtraction). -/
def resolveDefaultWindow (st : ChainState) (p : SearchParams)
    (cursor : Option Cursor) : Nat × Nat :=
  match cursor with
  | none =>
    match effectiveSort p with
    | .DESC => (st.latestKnownSlot - 5000, st.latestKnownSlot)
    | .ASC => (st.firstIndexedSlot, st.firstIndexedSlot + 5000)
  | some c =>
    match effectiveSort p with
    | .DESC => (c.slot - 5000, c.slot)
    | .ASC => (c.slot, c.slot + 5000)

/-- A four-page exhausting trace: pages `[1,2]`, `[3,4]`, `[5,6]`, `[7,8]`,
the first three with non-null cursors, the last with a null cursor. -/
def exTrace4 : List (List Nat × Option String) :=
  [([1, 2], some "10:1"), ([3, 4], some "10:5"),
   ([5, 6], some "10:9"), ([7, 8], none)]

/-- A two-page exhausting trace. -/
def exTrace2 : List (List Nat × Option String) :=
  [([1, 2], some "10:1"), ([3], none)]

/-- Three good pages, each with a non-null cursor; used with
`serverWithErr`, which answers the fourth request with an RPC error. -/
def exErrPages3 : List (List Nat × String) :=
  [([1, 2], "20:1"), ([3, 4], "20:5"), ([5, 6], "20:9")]

/-- One good page with a non-null cursor; used with `serverWithErr`,
which answers the second request with an RPC error. -/
def exErrPages1 : List (List Nat × String) :=
  [([1, 2], "20:1")]

/-- A trace whose third page has zero records but a non-null cursor. -/
def exTrace8 : List (List Nat × Option String) :=
  [([1], some "30:1"), ([2], some "30:5"), ([], some "30:9"), ([9], none)]

/-- A trace whose second page has zero records but a non-null cursor. -/
def exTrace8b : List (List Nat × Option String) :=
  [([1], some "40:1"), ([], some "40:5"), ([9], none)]

end UltraSearch

namespace UltraSearch

theorem fetchAllTransactionsWithPagination_eq
    (server : Nat → RpcResponse α) :
    fetchAllTransactionsWithPagination server = runSpec server := by
  unfold fetchAllTransactionsWithPagination runSpec
  rw [loopGo]
  rcases h1 : searchTransactions (server 1) with msg | o1
  · simp [h1]
  · rcases o1 with _ | p1
    · simp [h1]
    · rcases ht1 : p1.paginationToken with _ | c1
      · simp [h1, ht1]
      · simp only [h1, ht1]
        rw [loopGo]
        rcases h2 : searchTransactions (server 2) with msg | o2
        · simp [h2]
        · rcases o2 with _ | p2
          · simp [h2]
          · rcases ht2 : p2.paginationToken with _ | c2
            · simp [h2, ht2]
            · simp only [h2, ht2]
              rw [loopGo]
              rcases h3 : searchTransactions (server 3) with msg | o3
              · simp [h3]
              · rcases o3 with _ | p3
                · simp [h3]
                · simp [h3]

/-- Claim C2: `resolveDefaultWindow` is a pure function invoked only when
both `fromBlock` and `toBlock` are absent, and for every spec and cursor
it returns exactly the window given by the four-row decision table:
no token with `DESC` gives `[latestKnownSlot - 5000, latestKnownSlot]`;
no token with `ASC` gives `[firstIndexedSlot, firstIndexedSlot + 5000]`;
token present with `DESC` gives `[cursor.slot - 5000, cursor.slot]`;
token present with `ASC` gives `[cursor.slot, cursor.slot + 5000]`. -/
theorem C2_default_window_table (st : ChainState) (p : SearchParams)
    (hf : p.fromBlock = none) (ht : p.toBlock = none) :
    (effectiveSort p = .DESC →
      resolveDefaultWindow st p none =
        (st.latestKnownSlot - 5000, st.latestKnownSlot)) ∧
    (effectiveSort p = .ASC →
      resolveDefaultWindow st p none =
        (st.firstIndexedSlot, st.firstIndexedSlot + 5000)) ∧
    (∀ c : Cursor, effectiveSort p = .DESC →
      resolveDefaultWindow st p (some c) = (c.slot - 5000, c.slot)) ∧
    (∀ c : Cursor, effectiveSort p = .ASC →
      resolveDefaultWindow st p (some c) = (c.slot, c.slot + 5000)) := by
  refine ⟨fun hs => ?_, fun hs => ?_, fun c hs => ?_, fun c hs => ?_⟩ <;>
    simp [resolveDefaultWindow, hs]

/-- Witness for claim C2 at a concrete chain state, the empty spec, and a
concrete cursor. -/
theorem C2_default_window_table_witness :
    (({} : SearchParams).fromBlock = none ∧
      ({} : SearchParams).toBlock = none ∧
      effectiveSort {} = .DESC) ∧
    resolveDefaultWindow ⟨123456, 77⟩ {} none = (118456, 123456) ∧
    resolveDefaultWindow ⟨123456, 77⟩ {} (some ⟨20000, 3⟩) = (15000, 20000) :=
  ⟨⟨rfl, rfl, rfl⟩,
    by
      have h := (C2_default_window_table ⟨123456, 77⟩ {} rfl rfl).1 rfl
      simpa using h,
    by
      have h :=
        (C2_default_window_table ⟨123456, 77⟩ {} rfl rfl).2.2.1 ⟨20000, 3⟩ rfl
      simpa using h⟩

/-- Claim C5: a spec in which exactly one of `fromBlock` and `toBlock` is
set is rejected by `validate` with `UnpairedBlockRange`, before any
network call (the session performs zero requests); in particular the spec
with only `fromBlock = 100` is rejected this way. -/
theorem C5_unpaired_block_range (p : SearchParams)
    (server : Nat → RpcResponse α)
    (h : (p.fromBlock ≠ none ∧ p.toBlock = none) ∨
         (p.fromBlock = none ∧ p.toBlock ≠ none)) :
    validate p = .error .UnpairedBlockRange ∧
    (runSession p server).1 = .error .UnpairedBlockRange ∧
    (runSession p server).2 = 0 := by
  have hv : validate p = .error .UnpairedBlockRange := by
    rcases h with ⟨hf, ht⟩ | ⟨hf, ht⟩
    · rcases hfv : p.fromBlock with _ | f
      · exact absurd hfv hf
      · simp [validate, hfv, ht]
    · rcases htv : p.toBlock with _ | t
      · exact absurd htv ht
      · simp [validate, hf, htv]
  exact ⟨hv, by simp [runSession, hv], by simp [runSession, hv]⟩

/-- Witness for claim C5 at the concrete spec carrying only
`fromBlock = 100`, against a trivial server. -/
theorem C5_unpaired_block_range_witness :
    (({ fromBlock := some 100 } : SearchParams).fromBlock ≠ none ∧
      ({ fromBlock := some 100 } : SearchParams).toBlock = none) ∧
    validate { fromBlock := some 100 } = .error .UnpairedBlockRange ∧
    (runSession { fromBlock := some 100 }
      (fun _ => ({} : RpcResponse Nat))).2 = 0 :=
  ⟨⟨by decide, rfl⟩,
    (C5_unpaired_block_range { fromBlock := some 100 }
      (fun _ => ({} : RpcResponse Nat)) (Or.inl ⟨by decide, rfl⟩)).1,
    (C5_unpaired_block_range { fromBlock := some 100 }
      (fun _ => ({} : RpcResponse Nat)) (Or.inl ⟨by decide, rfl⟩)).2.2⟩

/-- Claim C6: validation accepts `limit` values up to the cap of the
active detail level (1000 for `Signatures`, 100 for `Full`), rejects any
`limit` above the cap with `LimitExceeded` rather than silently clamping
it, and an absent `limit` defaults to the cap (1000 for `Signatures`,
100 for `Full`). -/
theorem C6_limit_caps (p : SearchParams) :
    (∀ l, p.limit = some l → 1 ≤ l → l ≤ detailCap (effectiveDetails p) →
      checkLimit p = .ok p) ∧
    (∀ l, p.limit = some l → detailCap (effectiveDetails p) < l →
      checkLimit p = .error .LimitExceeded) ∧
    (∀ l, p.limit = some l → effectiveLimit p = l) ∧
    (p.limit = none → effectiveLimit p = detailCap (effectiveDetails p)) ∧
    detailCap .Signatures = 1000 ∧ detailCap .Full = 100 := by
  refine ⟨fun l hl h1 hcap => ?_, fun l hl hcap => ?_,
    fun l hl => ?_, fun hl => ?_, rfl, rfl⟩
  · simp [checkLimit, hl, Nat.not_lt.mpr hcap]
  · simp [checkLimit, hl, hcap]
  · simp [effectiveLimit, hl]
  · simp [effectiveLimit, hl]

/-- Witness for claim C6: a `Signatures` spec with `limit = 1000` is
accepted, a `Full` spec with `limit = 101` is rejected with
`LimitExceeded`, and the empty spec defaults to `limit = 1000`. -/
theorem C6_limit_caps_witness :
    (({ limit := some 1000 } : SearchParams).limit = some 1000 ∧
      1 ≤ 1000 ∧
      1000 ≤ detailCap (effectiveDetails { limit := some 1000 })) ∧
    checkLimit { limit := some 1000 } = .ok { limit := some 1000 } ∧
    checkLimit { limit := some 101, transactionDetails := some TransactionDetails.Full } = .error .LimitExceeded ∧
    effectiveLimit {} = 1000 :=
  ⟨⟨rfl, by decide, by decide⟩,
    (C6_limit_caps { limit := some 1000 }).1 1000 rfl (by decide) (by decide),
    (C6_limit_caps { limit := some 101, transactionDetails := some TransactionDetails.Full }).2.1 101 rfl (by decide),
    (C6_limit_caps {}).2.2.2.1 rfl⟩

/-- Claim C7: for the empty spec (all fields absent) the engine applies
the defaults `detailLevel = Signatures` and `limit = 1000`, and the
default window is the `DESC`, no-token row of the table:
`[latestKnownSlot - 5000, latestKnownSlot]`. -/
theorem C7_empty_spec_defaults (st : ChainState) :
    effectiveDetails {} = .Signatures ∧
    effectiveLimit {} = 1000 ∧
    effectiveSort {} = .DESC ∧
    resolveDefaultWindow st {} none =
      (st.latestKnownSlot - 5000, st.latestKnownSlot) :=
  ⟨rfl, rfl, rfl, rfl⟩

/-- Claim C10: for every server behaviour,
`fetchAllTransactionsWithPagination` issues at least one request
(do-while) and at most three; and when the third request is answered
with a good page, the loop breaks out (exit `capped`) even when the
returned `paginationToken` is non-null, so no page past the third is
ever fetched. -/
theorem C10_request_cap (server : Nat → RpcResponse α) :
    1 ≤ (fetchAllTransactionsWithPagination server).requests.length ∧
    (fetchAllTransactionsWithPagination server).requests.length ≤ 3 ∧
    (∀ pl : ResultPayload α,
      searchTransactions (server 3) = .ok (some pl) →
      (fetchAllTransactionsWithPagination server).requests.length = 3 →
      (fetchAllTransactionsWithPagination server).exit = .capped) := by
  rw [fetchAllTransactionsWithPagination_eq]
  unfold runSpec
  rcases h1 : searchTransactions (server 1) with m1 | o1
  · simp [h1]
  rcases o1 with _ | p1
  · simp [h1]
  rcases ht1 : p1.paginationToken with _ | c1
  · simp [h1, ht1]
  rcases h2 : searchTransactions (server 2) with m2 | o2
  · simp [h1, ht1, h2]
  rcases o2 with _ | p2
  · simp [h1, ht1, h2]
  rcases ht2 : p2.paginationToken with _ | c2
  · simp [h1, ht1, h2, ht2]
  rcases h3 : searchTransactions (server 3) with m3 | o3
  · simp [h1, ht1, h2, ht2, h3]
  rcases o3 with _ | p3
  · simp [h1, ht1, h2, ht2, h3]
  · simp [h1, ht1, h2, ht2, h3]

/-- Witness for claim C10 at a concrete server trace with four pages:
exactly three requests are issued and the run exits via the cap. -/
theorem C10_request_cap_witness :
    searchTransactions (serverOfPages exTrace4 3) =
      .ok (some ⟨[5, 6], some "10:9"⟩) ∧
    (fetchAllTransactionsWithPagination
      (serverOfPages exTrace4)).requests.length = 3 ∧
    (fetchAllTransactionsWithPagination (serverOfPages exTrace4)).exit =
      .capped :=
  ⟨by rfl,
    by rw [fetchAllTransactionsWithPagination_eq]; decide,
    (C10_request_cap (serverOfPages exTrace4)).2.2 ⟨[5, 6], some "10:9"⟩
      (by rfl)
      (by rw [fetchAllTransactionsWithPagination_eq]; decide)⟩

/-- Claim C3: in every run, the first request carries no pagination
token, and the request for page `k + 1` carries exactly the
`paginationToken` returned by page `k`; pagination is strictly
sequential (the `i`-th request is answered by the server's `i`-th page),
and the client never constructs a token — every non-first request token
is the server-issued one, echoed unchanged. -/
theorem C3_token_chain (server : Nat → RpcResponse α) (i : Nat)
    (h : i + 1 < (fetchAllTransactionsWithPagination server).requests.length) :
    (fetchAllTransactionsWithPagination server).requests[0]? = some none ∧
    ∃ pl : ResultPayload α,
      searchTransactions (server (i + 1)) = .ok (some pl) ∧
      (fetchAllTransactionsWithPagination server).requests[i + 1]? =
        some pl.paginationToken := by
  rw [fetchAllTransactionsWithPagination_eq] at h ⊢
  unfold runSpec at h ⊢
  rcases h1 : searchTransactions (server 1) with m1 | o1
  · simp [h1] at h
  rcases o1 with _ | p1
  · simp [h1] at h
  rcases ht1 : p1.paginationToken with _ | c1
  · simp [h1, ht1] at h
  rcases h2 : searchTransactions (server 2) with m2 | o2
  · simp [h1, ht1, h2] at h ⊢
    obtain rfl : i = 0 := by omega
    exact ⟨p1, h1, by simp [ht1]⟩
  rcases o2 with _ | p2
  · simp [h1, ht1, h2] at h ⊢
    obtain rfl : i = 0 := by omega
    exact ⟨p1, h1, by simp [ht1]⟩
  rcases ht2 : p2.paginationToken with _ | c2
  · simp [h1, ht1, h2, ht2] at h ⊢
    obtain rfl : i = 0 := by omega
    exact ⟨p1, h1, by simp [ht1]⟩
  · simp [h1, ht1, h2, ht2] at h ⊢
    rcases h3 : searchTransactions (server 3) with m3 | o3
    · simp [h3] at h ⊢
      have hi : i = 0 ∨ i = 1 := by omega
      rcases hi with rfl | rfl
      · exact ⟨p1, h1, by simp [ht1]⟩
      · exact ⟨p2, h2, by simp [ht2]⟩
    rcases o3 with _ | p3
    · simp [h3] at h ⊢
      have hi : i = 0 ∨ i = 1 := by omega
      rcases hi with rfl | rfl
      · exact ⟨p1, h1, by simp [ht1]⟩
      · exact ⟨p2, h2, by simp [ht2]⟩
    · simp [h3] at h ⊢
      have hi : i = 0 ∨ i = 1 := by omega
      rcases hi with rfl | rfl
      · exact ⟨p1, h1, by simp [ht1]⟩
      · exact ⟨p2, h2, by simp [ht2]⟩

/-- Witness for claim C3 at a concrete server trace: the second request
carries exactly the token returned by the first page. -/
theorem C3_token_chain_witness :
    (0 + 1 <
      (fetchAllTransactionsWithPagination
        (serverOfPages exTrace2)).requests.length) ∧
    (fetchAllTransactionsWithPagination
      (serverOfPages exTrace2)).requests[0]? = some none ∧
    ∃ pl : ResultPayload Nat,
      searchTransactions (serverOfPages exTrace2 (0 + 1)) = .ok (some pl) ∧
      (fetchAllTransactionsWithPagination
        (serverOfPages exTrace2)).requests[0 + 1]? =
          some pl.paginationToken :=
  ⟨by rw [fetchAllTransactionsWithPagination_eq]; decide,
    C3_token_chain (serverOfPages exTrace2) 0
      (by rw [fetchAllTransactionsWithPagination_eq]; decide)⟩

/-- Claim C1 fails as stated: on the well-formed four-page trace
`exTrace4` the loop stops after its third page (the demo cap), so the
yielded records `[1,2,3,4,5,6]` omit page four's records and differ from
the concatenation `[1,2,3,4,5,6,7,8]` of all pages. -/
theorem C1_counterexample :
    WFtrace exTrace4 ∧
    (exTrace4.map Prod.fst).flatten = [1, 2, 3, 4, 5, 6, 7, 8] ∧
    (fetchAllTransactionsWithPagination (serverOfPages exTrace4)).records =
      [1, 2, 3, 4, 5, 6] ∧
    (fetchAllTransactionsWithPagination (serverOfPages exTrace4)).records ≠
      (exTrace4.map Prod.fst).flatten := by
  refine ⟨by decide, by decide, ?_, ?_⟩ <;>
    rw [fetchAllTransactionsWithPagination_eq] <;> decide

/-- Claim C1 (amended): for every finite server trace of at most three
pages whose pages eventually return a null next-cursor, the pagination
loop terminates without error and yields exactly the concatenation of
all pages' records in server-given order, with no record duplicated and
none omitted.  (Traces longer than three pages lose the records past
page three to the `pageCount >= 3` demo break.) -/
theorem C1_short_trace_concat (pages : List (List α × Option String))
    (hwf : WFtrace pages) (hlen : pages.length ≤ 3) :
    (fetchAllTransactionsWithPagination (serverOfPages pages)).records =
      (pages.map Prod.fst).flatten ∧
    ((fetchAllTransactionsWithPagination (serverOfPages pages)).exit =
        .exhausted ∨
      (fetchAllTransactionsWithPagination (serverOfPages pages)).exit =
        .capped) := by
  obtain ⟨hne, hmid, hlast⟩ := hwf
  rw [fetchAllTransactionsWithPagination_eq]
  rcases pages with _ | ⟨⟨r1, t1⟩, pages⟩
  · exact absurd rfl hne
  rcases pages with _ | ⟨⟨r2, t2⟩, pages⟩
  · simp only [List.length_cons, List.length_nil] at hlast
    simp at hlast
    subst hlast
    simp [runSpec, serverOfPages, searchTransactions]
  rcases pages with _ | ⟨⟨r3, t3⟩, pages⟩
  · have h1 := hmid 0 (by simp)
    simp at h1
    rcases t1 with _ | c1
    · exact absurd rfl h1
    simp at hlast
    subst hlast
    simp [runSpec, serverOfPages, searchTransactions]
  rcases pages with _ | ⟨⟨r4, t4⟩, pages⟩
  · have h1 := hmid 0 (by simp)
    have h2 := hmid 1 (by simp)
    simp at h1 h2
    rcases t1 with _ | c1
    · exact absurd rfl h1
    rcases t2 with _ | c2
    · exact absurd rfl h2
    simp at hlast
    subst hlast
    simp [runSpec, serverOfPages, searchTransactions]
  · simp only [List.length_cons] at hlen
    omega

/-- Witness for claim C1 (amended) at the concrete two-page trace
`exTrace2`. -/
theorem C1_short_trace_concat_witness :
    (WFtrace exTrace2 ∧ exTrace2.length ≤ 3) ∧
    (fetchAllTransactionsWithPagination (serverOfPages exTrace2)).records =
      (exTrace2.map Prod.fst).flatten :=
  ⟨⟨by decide, by decide⟩,
    (C1_short_trace_concat exTrace2 (by decide) (by decide)).1⟩

/-- Claim C4 fails as stated: when pages 1–3 are good and page 4 returns
an RPC error, the loop never reaches page 4 — it stops at the demo cap
with exit `capped`, so the error is not raised. -/
theorem C4_counterexample :
    serverWithErr exErrPages3 "boom" 4 =
      { result := none, error := some "boom" } ∧
    (fetchAllTransactionsWithPagination
      (serverWithErr exErrPages3 "boom")).records = [1, 2, 3, 4, 5, 6] ∧
    (fetchAllTransactionsWithPagination
      (serverWithErr exErrPages3 "boom")).exit = .capped ∧
    (fetchAllTransactionsWithPagination
      (serverWithErr exErrPages3 "boom")).exit ≠ .rpcError "boom" := by
  refine ⟨by rfl, ?_, ?_, ?_⟩ <;>
    rw [fetchAllTransactionsWithPagination_eq] <;> decide

/-- Claim C4 (amended): if page `k` (with `k ≤ 3`, so that the demo cap
does not intervene) returns an RPC error, the loop accumulates exactly
the records of pages `1` to `k - 1` and then surfaces that error; its
exit is `rpcError`, never `exhausted`, so a failed page is
distinguishable from a null next-cursor. -/
theorem C4_error_page_surfaced (pages : List (List α × String))
    (msg : String) (hlen : pages.length ≤ 2) :
    (fetchAllTransactionsWithPagination (serverWithErr pages msg)).records =
      (pages.map Prod.fst).flatten ∧
    (fetchAllTransactionsWithPagination (serverWithErr pages msg)).exit =
      .rpcError msg ∧
    (fetchAllTransactionsWithPagination (serverWithErr pages msg)).exit ≠
      .exhausted := by
  rw [fetchAllTransactionsWithPagination_eq]
  rcases pages with _ | ⟨⟨r1, t1⟩, pages⟩
  · simp [runSpec, serverWithErr, searchTransactions]
  rcases pages with _ | ⟨⟨r2, t2⟩, pages⟩
  · simp [runSpec, serverWithErr, searchTransactions]
  rcases pages with _ | ⟨⟨r3, t3⟩, pages⟩
  · simp [runSpec, serverWithErr, searchTransactions]
  · simp only [List.length_cons] at hlen
    omega

/-- Witness for claim C4 (amended) at a concrete one-page trace followed
by an RPC error on the second request. -/
theorem C4_error_page_surfaced_witness :
    exErrPages1.length ≤ 2 ∧
    (fetchAllTransactionsWithPagination
      (serverWithErr exErrPages1 "rpc failed")).records = [1, 2] ∧
    (fetchAllTransactionsWithPagination
      (serverWithErr exErrPages1 "rpc failed")).exit =
        .rpcError "rpc failed" :=
  ⟨by decide,
    by
      have h :=
        (C4_error_page_surfaced exErrPages1 "rpc failed" (by decide)).1
      simpa using h,
    (C4_error_page_surfaced exErrPages1 "rpc failed" (by decide)).2.1⟩

/-- Claim C8 fails as stated: on `exTrace8`, whose third page has zero
records but the non-null cursor `"30:9"`, the loop terminates at the
demo cap — it never issues a fourth request carrying that cursor. -/
theorem C8_counterexample :
    (serverOfPages exTrace8 3).result =
      some { data := [], paginationToken := some "30:9" } ∧
    (fetchAllTransactionsWithPagination (serverOfPages exTrace8)).requests =
      [none, some "30:1", some "30:5"] ∧
    (fetchAllTransactionsWithPagination (serverOfPages exTrace8)).exit =
      .capped := by
  refine ⟨by rfl, ?_, ?_⟩ <;>
    rw [fetchAllTransactionsWithPagination_eq] <;> decide

/-- Claim C8 (amended): a page whose records list is empty but whose
next-cursor is non-null does not terminate the iteration, provided it is
not the third page (where the demo cap breaks regardless): the loop
issues the next request carrying exactly that cursor. -/
theorem C8_empty_page_continues (server : Nat → RpcResponse α) (k : Nat)
    (c : String) (pl : ResultPayload α) (hk1 : 1 ≤ k) (hk : k < 3)
    (hreach :
      k ≤ (fetchAllTransactionsWithPagination server).requests.length)
    (hs : searchTransactions (server k) = .ok (some pl))
    (hd : pl.data = []) (ht : pl.paginationToken = some c) :
    k < (fetchAllTransactionsWithPagination server).requests.length ∧
    (fetchAllTransactionsWithPagination server).requests[k]? =
      some (some c) := by
  have hk2 : k = 1 ∨ k = 2 := by omega
  rw [fetchAllTransactionsWithPagination_eq] at hreach ⊢
  unfold runSpec at hreach ⊢
  rcases hk2 with rfl | rfl
  · simp only [hs, ht] at hreach ⊢
    rcases h2 : searchTransactions (server 2) with m2 | o2
    · simp [h2]
    rcases o2 with _ | p2
    · simp [h2]
    rcases ht2 : p2.paginationToken with _ | c2
    · simp [h2, ht2]
    · rcases h3 : searchTransactions (server 3) with m3 | o3
      · simp [h2, ht2, h3]
      rcases o3 with _ | p3
      · simp [h2, ht2, h3]
      · simp [h2, ht2, h3]
  · rcases h1 : searchTransactions (server 1) with m1 | o1
    · simp [h1] at hreach
    rcases o1 with _ | p1
    · simp [h1] at hreach
    rcases ht1 : p1.paginationToken with _ | c1
    · simp [h1, ht1] at hreach
    · simp only [h1, ht1, hs, ht] at hreach ⊢
      rcases h3 : searchTransactions (server 3) with m3 | o3
      · simp [h3]
      rcases o3 with _ | p3
      · simp [h3]
      · simp [h3]

/-- Witness for claim C8 (amended) at the concrete trace `exTrace8b`,
whose second page is empty with cursor `"40:5"`: the third request
carries that cursor. -/
theorem C8_empty_page_continues_witness :
    (1 ≤ 2 ∧ 2 < 3 ∧
      2 ≤ (fetchAllTransactionsWithPagination
        (serverOfPages exTrace8b)).requests.length) ∧
    2 < (fetchAllTransactionsWithPagination
      (serverOfPages exTrace8b)).requests.length ∧
    (fetchAllTransactionsWithPagination
      (serverOfPages exTrace8b)).requests[2]? = some (some "40:5") :=
  ⟨⟨by decide, by decide,
      by rw [fetchAllTransactionsWithPagination_eq]; decide⟩,
    C8_empty_page_continues (serverOfPages exTrace8b) 2 "40:5"
      ⟨[], some "40:5"⟩ (by decide) (by decide)
      (by rw [fetchAllTransactionsWithPagination_eq]; decide)
      (by rfl) (by rfl) (by rfl)⟩

/-- Claim C9 fails as stated: `searchTransactions` applied to a response
missing both the `result` and the `error` key raises nothing — it
returns the absent result as a normal `.ok` value. -/
theorem C9_counterexample :
    ({ result := none, error := none } : RpcResponse Nat).result = none ∧
    ({ result := none, error := none } : RpcResponse Nat).error = none ∧
    searchTransactions
      ({ result := none, error := none } : RpcResponse Nat) = .ok none :=
  ⟨rfl, rfl, rfl⟩

/-- Claim C9 (amended): a response missing both the `result` and the
`error` key is not detected by `searchTransactions`, which returns the
absent result as a normal value; the pagination loop then fails hard
with a `TypeError` when it reads `result.data`, so such a response is
never reported as exhaustion (and no later page is fetched). -/
theorem C9_malformed_not_exhaustion (server : Nat → RpcResponse α)
    (k : Nat) (hk1 : 1 ≤ k)
    (hreach :
      k ≤ (fetchAllTransactionsWithPagination server).requests.length)
    (hmal : server k = { result := none, error := none }) :
    searchTransactions (server k) = .ok none ∧
    (fetchAllTransactionsWithPagination server).exit = .typeError ∧
    (fetchAllTransactionsWithPagination server).exit ≠ .exhausted ∧
    (fetchAllTransactionsWithPagination server).requests.length = k := by
  have hsk : searchTransactions (server k) = .ok none := by
    rw [hmal]; rfl
  refine ⟨hsk, ?_⟩
  rw [fetchAllTransactionsWithPagination_eq] at hreach ⊢
  unfold runSpec at hreach ⊢
  rcases h1 : searchTransactions (server 1) with m1 | o1
  · simp [h1] at hreach ⊢
    obtain rfl : k = 1 := by omega
    rw [h1] at hsk
    exact absurd hsk (by simp)
  rcases o1 with _ | p1
  · simp [h1] at hreach ⊢
    obtain rfl : k = 1 := by omega
    simp
  rcases ht1 : p1.paginationToken with _ | c1
  · simp [h1, ht1] at hreach ⊢
    obtain rfl : k = 1 := by omega
    rw [h1] at hsk
    exact absurd hsk (by simp)
  rcases h2 : searchTransactions (server 2) with m2 | o2
  · simp [h1, ht1, h2] at hreach ⊢
    interval_cases k
    · rw [h1] at hsk
      exact absurd hsk (by simp)
    · rw [h2] at hsk
      exact absurd hsk (by simp)
  rcases o2 with _ | p2
  · simp [h1, ht1, h2] at hreach ⊢
    interval_cases k
    · rw [h1] at hsk
      exact absurd hsk (by simp)
    · simp
  rcases ht2 : p2.paginationToken with _ | c2
  · simp [h1, ht1, h2, ht2] at hreach ⊢
    interval_cases k
    · rw [h1] at hsk
      exact absurd hsk (by simp)
    · rw [h2] at hsk
      exact absurd hsk (by simp)
  rcases h3 : searchTransactions (server 3) with m3 | o3
  · simp [h1, ht1, h2, ht2, h3] at hreach ⊢
    interval_cases k
    · rw [h1] at hsk
      exact absurd hsk (by simp)
    · rw [h2] at hsk
      exact absurd hsk (by simp)
    · rw [h3] at hsk
      exact absurd hsk (by simp)
  rcases o3 with _ | p3
  · simp [h1, ht1, h2, ht2, h3] at hreach ⊢
    interval_cases k
    · rw [h1] at hsk
      exact absurd hsk (by simp)
    · rw [h2] at hsk
      exact absurd hsk (by simp)
    · simp
  · simp [h1, ht1, h2, ht2, h3] at hreach ⊢
    interval_cases k
    · rw [h1] at hsk
      exact absurd hsk (by simp)
    · rw [h2] at hsk
      exact absurd hsk (by simp)
    · rw [h3] at hsk
      exact absurd hsk (by simp)

/-- Witness for claim C9 (amended): a server that always answers with a
response missing both keys makes the run fail with a `TypeError` on its
very first page. -/
theorem C9_malformed_not_exhaustion_witness :
    (1 ≤ 1 ∧
      1 ≤ (fetchAllTransactionsWithPagination
        (fun _ => ({ result := none, error := none } :
          RpcResponse Nat))).requests.length) ∧
    (fetchAllTransactionsWithPagination
      (fun _ => ({ result := none, error := none } :
        RpcResponse Nat))).exit = .typeError :=
  ⟨⟨by decide, by rw [fetchAllTransactionsWithPagination_eq]; decide⟩,
    (C9_malformed_not_exhaustion
      (fun _ => ({ result := none, error := none } : RpcResponse Nat)) 1
      (by decide)
      (by rw [fetchAllTransactionsWithPagination_eq]; decide)
      (by rfl)).2.1⟩

end UltraSearch
